import Mathlib

/-!
Verification of the PawfectFind booking hand-off: a shallow embedding of
the producer (`create_booking` / `send_booking_to_queue` in `flask_app.py`)
and the consumer (`process_booking_message` / `receive_messages` / `main`
in `queue_consumer.py`), with theorems about persistence ordering,
acknowledgement, idempotence, framing, validation and supervision.
-/

namespace PawfectFind

/-- A row of the `bookings` table (schema from `init_db` in `flask_app.py`). -/
structure Booking where
  id : Nat
  user_id : Int
  pet_id : Int
  service_type : String
  vendor_id : String
  booking_date : String
  booking_time : String
  status : String
  created_at : Nat
deriving DecidableEq, Repr

/-- The `bookings` table together with the next `IDENTITY` value the
database will assign. -/
structure DB where
  rows : List Booking
  nextId : Nat
deriving DecidableEq, Repr

/-- The payload published to the queue: the `booking_data` dict built in
`create_booking` (`flask_app.py`, lines 533-541). -/
structure BookingMessage where
  booking_id : Nat
  user_id : Int
  service_type : String
  vendor_id : String
  booking_date : String
  booking_time : String
  status : String
deriving DecidableEq, Repr

/-- A JSON scalar as produced by `json.dumps` for the message fields
(ints and strings only). -/
inductive JVal
  | jnum (n : Int)
  | jstr (s : String)
deriving DecidableEq, Repr

/-- The serialized message body: the key/value pairs of the `booking_data`
dict, in the insertion order `json.dumps` preserves. -/
def messageBody (m : BookingMessage) : List (String × JVal) :=
  [("booking_id", .jnum (Int.ofNat m.booking_id)),
   ("user_id", .jnum m.user_id),
   ("service_type", .jstr m.service_type),
   ("vendor_id", .jstr m.vendor_id),
   ("booking_date", .jstr m.booking_date),
   ("booking_time", .jstr m.booking_time),
   ("status", .jstr m.status)]

/-- The JSON body of a POST `/api/bookings` request: each required key is
either present with a value or absent. -/
structure ReqData where
  pet_id : Option Int
  service_type : Option String
  vendor_id : Option String
  booking_date : Option String
  booking_time : Option String
deriving DecidableEq, Repr

/-- `field in data` for the request dict. -/
def hasField (d : ReqData) : String → Bool
  | "pet_id" => d.pet_id.isSome
  | "service_type" => d.service_type.isSome
  | "vendor_id" => d.vendor_id.isSome
  | "booking_date" => d.booking_date.isSome
  | "booking_time" => d.booking_time.isSome
  | _ => false

/-- The `required_fields` list of `create_booking` (`flask_app.py`, line 515),
in source order. -/
def requiredFields : List String :=
  ["pet_id", "service_type", "vendor_id", "booking_date", "booking_time"]

/-- The validation loop of `create_booking`: the first required field not in
the request dict, if any. -/
def firstMissingField (d : ReqData) : Option String :=
  requiredFields.find? (fun f => !hasField d f)

/-- HTTP response of `create_booking`. -/
inductive Response
  | missingField (field : String)
  | serverError
  | created (booking_id : Nat)
  | createdQueueUnavailable
deriving DecidableEq, Repr

/-- HTTP status code attached to each `create_booking` response
(`flask_app.py`, lines 518, 549, 551, 554). -/
def httpStatus : Response → Nat
  | .missingField _ => 400
  | .serverError => 500
  | .created _ => 201
  | .createdQueueUnavailable => 201

/-- Observable side effects of one `create_booking` request, in the order
they happen. -/
inductive PEvent
  | commit (bid : Nat)
  | publish (queue : String) (msg : BookingMessage) (delivered : Bool)
deriving DecidableEq, Repr

/-- Queue name constant `BOOKING_QUEUE_NAME` (both source files, value
`"booking-queue"`). -/
def BOOKING_QUEUE_NAME : String := "booking-queue"

/-- `send_booking_to_queue` (`flask_app.py`, lines 233-245): one publish
attempt to `BOOKING_QUEUE_NAME`; returns `True` when the broker accepted the
message, `False` when the attempt raised (the error is printed, i.e. logged,
in that case). `pubOk` models whether the broker is reachable. -/
def send_booking_to_queue (pubOk : Bool) (m : BookingMessage) :
    Bool × List PEvent :=
  if pubOk then (true, [.publish BOOKING_QUEUE_NAME m true])
  else (false, [.publish BOOKING_QUEUE_NAME m false])

/-- Result of one `create_booking` request: HTTP response, database state
after the request, and the emitted side-effect events. -/
structure CBResult where
  response : Response
  db : DB
  events : List PEvent
deriving DecidableEq, Repr

/-- `create_booking` (`flask_app.py`, lines 508-554). `uid` is the JWT
identity, `now` the database clock for `created_at`, `dbOk` whether the
INSERT/COMMIT succeeds (a raise is modelled as `dbOk = false`, leaving the
transaction uncommitted), `pubOk` whether the Service Bus publish succeeds.
The INSERT sets status to the SQL literal `'confirmed'` (line 526); the
message carries the same fields and status as the committed row. -/
def create_booking (uid : Int) (data : ReqData) (db : DB) (now : Nat)
    (dbOk pubOk : Bool) : CBResult :=
  match firstMissingField data with
  | some f => ⟨.missingField f, db, []⟩
  | none =>
    if dbOk then
      let bid := db.nextId
      let row : Booking :=
        ⟨bid, uid, data.pet_id.getD 0, data.service_type.getD "",
         data.vendor_id.getD "", data.booking_date.getD "",
         data.booking_time.getD "", "confirmed", now⟩
      let db' : DB := ⟨db.rows ++ [row], db.nextId + 1⟩
      let msg : BookingMessage :=
        ⟨bid, uid, data.service_type.getD "", data.vendor_id.getD "",
         data.booking_date.getD "", data.booking_time.getD "", "confirmed"⟩
      let sendRes := send_booking_to_queue pubOk msg
      if sendRes.1 then
        ⟨.created bid, db', .commit bid :: sendRes.2⟩
      else
        ⟨.createdQueueUnavailable, db', .commit bid :: sendRes.2⟩
    else
      ⟨.serverError, db, []⟩

/-- Scans an event list keeping the set of committed booking ids; `true` iff
every publish event (delivered or attempted) is preceded by the commit of the
row it references. -/
def rowBeforePublish : List Nat → List PEvent → Bool
  | _, [] => true
  | committed, .commit bid :: rest => rowBeforePublish (bid :: committed) rest
  | committed, .publish _ m _ :: rest =>
      committed.contains m.booking_id && rowBeforePublish committed rest

/-- Every publish in the trace happens after the commit of its row. -/
def commitPrecedesPublish (evs : List PEvent) : Bool :=
  rowBeforePublish [] evs

/-- The messages actually delivered to the queue. -/
def deliveredMessages (evs : List PEvent) : List (String × BookingMessage) :=
  evs.filterMap (fun e =>
    match e with
    | .publish q m true => some (q, m)
    | _ => none)

/-- All publish attempts (delivered or not). -/
def publishAttempts (evs : List PEvent) : List (String × BookingMessage) :=
  evs.filterMap (fun e =>
    match e with
    | .publish q m _ => some (q, m)
    | _ => none)

/-- Whether a failed publish attempt was logged: `send_booking_to_queue`
prints the error exactly when the attempt fails (`flask_app.py`, line 244). -/
def publishFailureLogged (r : CBResult) : Bool :=
  r.events.any (fun e =>
    match e with
    | .publish _ _ false => true
    | _ => false)

/-- The SQL UPDATE the consumer runs (`queue_consumer.py`, lines 57-63):
set `status = 'confirmed'` on every row whose `id` equals the message's
booking identifier, leaving every other column and row untouched. -/
def updateStatusConfirmed (db : List Booking) (bid : Nat) : List Booking :=
  db.map (fun r => if r.id = bid then { r with status := "confirmed" } else r)

/-- Environment of one received message: `parsed = none` when `json.loads`
raises on the body; `parsed = some none` when the body parses but has no
`booking_id` key (the subscript in `process_booking_message` raises);
`parsed = some (some bid)` when the body carries booking id `bid`.
`dbOk` is whether the database connect/update/commit succeeds. -/
structure MsgEnv where
  parsed : Option (Option Nat)
  dbOk : Bool
deriving DecidableEq, Repr

/-- `process_booking_message` (`queue_consumer.py`, lines 44-78): given the
parsed body's `booking_id` lookup result and the database outcome, either
return the updated table (the function returns `True`) or `none` (the
function re-raises its exception). -/
def process_booking_message (db : List Booking) (data : Option Nat)
    (dbOk : Bool) : Option (List Booking) :=
  match data with
  | none => none
  | some bid => if dbOk then some (updateStatusConfirmed db bid) else none

/-- Disposition of one received message by the consumer loop. -/
inductive MsgOutcome
  | completed
  | abandoned
deriving DecidableEq, Repr

/-- The per-message body of the receiver loop (`queue_consumer.py`, lines
95-114): parse, process, complete on success; on any exception, abandon and
keep the state unchanged. -/
def handleMessage (db : List Booking) (m : MsgEnv) :
    MsgOutcome × List Booking :=
  match m.parsed with
  | none => (.abandoned, db)
  | some data =>
    match process_booking_message db data m.dbOk with
    | some db' => (.completed, db')
    | none => (.abandoned, db)

/-- A message's processing succeeds exactly when its body parses with a
`booking_id` and the database update goes through. -/
def msgSucceeds (m : MsgEnv) : Bool :=
  match m.parsed with
  | some (some _) => m.dbOk
  | _ => false

/-- `receive_messages` (`queue_consumer.py`, lines 80-118) as a fold of
`handleMessage` over the delivered messages: returns each message's
disposition in order, and the final table. -/
def receive_messages (db : List Booking) :
    List MsgEnv → List MsgOutcome × List Booking
  | [] => ([], db)
  | m :: rest =>
    let step := handleMessage db m
    let tail := receive_messages step.2 rest
    (step.1 :: tail.1, tail.2)

/-- Outcome of one call to `receive_messages` as seen by `main`:
it returns normally, raises a broker connectivity error (re-raised at
`queue_consumer.py`, line 118), or is interrupted by the user. -/
inductive RunOutcome
  | ok
  | connError
  | interrupt
deriving DecidableEq, Repr

/-- Observable actions of the `main` supervision loop. -/
inductive Action
  | receiveCall
  | logConnError
  | sleep (seconds : Nat)
  | logStopped
deriving DecidableEq, Repr

/-- The trace of `main` (`queue_consumer.py`, lines 120-133) over a finite
schedule of `receive_messages` outcomes. While the loop is still running,
the trace ends with the pending `receiveCall` of the next iteration; a
connectivity error is logged and followed by a 10 second sleep before that
next call; an interrupt logs the stop message and breaks. -/
def mainTrace : List RunOutcome → List Action
  | [] => [.receiveCall]
  | .ok :: rest => .receiveCall :: mainTrace rest
  | .connError :: rest =>
      .receiveCall :: .logConnError :: .sleep 10 :: mainTrace rest
  | .interrupt :: _ => [.receiveCall, .logStopped]

/-- Whether `main` has exited after this schedule of outcomes. -/
def mainExits : List RunOutcome → Bool
  | [] => false
  | .interrupt :: _ => true
  | _ :: rest => mainExits rest

/-- A fully populated request body (the scenario of spec section 8). -/
def reqSample : ReqData :=
  ⟨some 2, some "Grooming", some "paws", some "2024-06-01", some "10:00 AM"⟩

/-- A request body missing its `vendor_id` key. -/
def reqMissing : ReqData :=
  ⟨some 2, some "Grooming", none, some "2024-06-01", some "10:00 AM"⟩

/-- An empty bookings table whose next identity value is 1. -/
def dbEmpty : DB := ⟨[], 1⟩

/-! ### Helper lemmas -/

/-- The disposition `handleMessage` assigns depends only on the message's
own success, not on the table contents. -/
lemma handleMessage_fst (db : List Booking) (m : MsgEnv) :
    (handleMessage db m).1
      = if msgSucceeds m = true then MsgOutcome.completed
        else MsgOutcome.abandoned := by
  rcases m with ⟨p, dbOk⟩
  rcases p with _ | p
  · simp [handleMessage, msgSucceeds]
  · rcases p with _ | bid <;> rcases dbOk <;>
      simp [handleMessage, msgSucceeds, process_booking_message]

/-- A successful `find?` returns the first element satisfying the
predicate: everything strictly before it falsifies the predicate. -/
lemma find?_eq_some_first {α : Type} (p : α → Bool) :
    ∀ (l : List α) (x : α), l.find? p = some x →
      p x = true ∧ ∃ l1 l2, l = l1 ++ x :: l2 ∧ ∀ g ∈ l1, p g = false := by
  intro l
  induction l with
  | nil => intro x h; simp [List.find?] at h
  | cons a rest ih =>
    intro x h
    by_cases ha : p a = true
    · rw [List.find?_cons_of_pos _ ha] at h
      cases h
      exact ⟨ha, [], rest, rfl, by simp⟩
    · rw [List.find?_cons_of_neg _ (by simpa using ha)] at h
      obtain ⟨hp, l1, l2, heq, hall⟩ := ih x h
      refine ⟨hp, a :: l1, l2, by rw [heq]; rfl, ?_⟩
      intro g hg
      rcases List.mem_cons.mp hg with hg | hg
      · subst hg; simpa using ha
      · exact hall g hg

/-- Evaluation of `hasField` at each required key. -/
lemma hasField_pet_id (d : ReqData) : hasField d "pet_id" = d.pet_id.isSome := rfl

/-- Evaluation of `hasField` at the `service_type` key. -/
lemma hasField_service_type (d : ReqData) :
    hasField d "service_type" = d.service_type.isSome := rfl

/-- Evaluation of `hasField` at the `vendor_id` key. -/
lemma hasField_vendor_id (d : ReqData) :
    hasField d "vendor_id" = d.vendor_id.isSome := rfl

/-- Evaluation of `hasField` at the `booking_date` key. -/
lemma hasField_booking_date (d : ReqData) :
    hasField d "booking_date" = d.booking_date.isSome := rfl

/-- Evaluation of `hasField` at the `booking_time` key. -/
lemma hasField_booking_time (d : ReqData) :
    hasField d "booking_time" = d.booking_time.isSome := rfl

/-- When validation passes, every required key is present in the request. -/
lemma firstMissingField_none_isSome (d : ReqData)
    (h : firstMissingField d = none) :
    d.pet_id.isSome = true ∧ d.service_type.isSome = true
    ∧ d.vendor_id.isSome = true ∧ d.booking_date.isSome = true
    ∧ d.booking_time.isSome = true := by
  rw [firstMissingField, List.find?_eq_none] at h
  refine ⟨?_, ?_, ?_, ?_, ?_⟩
  · have := h "pet_id" (by simp [requiredFields])
    rw [hasField_pet_id] at this
    simpa [Option.isSome_iff_ne_none] using this
  · have := h "service_type" (by simp [requiredFields])
    rw [hasField_service_type] at this
    simpa [Option.isSome_iff_ne_none] using this
  · have := h "vendor_id" (by simp [requiredFields])
    rw [hasField_vendor_id] at this
    simpa [Option.isSome_iff_ne_none] using this
  · have := h "booking_date" (by simp [requiredFields])
    rw [hasField_booking_date] at this
    simpa [Option.isSome_iff_ne_none] using this
  · have := h "booking_time" (by simp [requiredFields])
    rw [hasField_booking_time] at this
    simpa [Option.isSome_iff_ne_none] using this

/-- A row whose status is already `"confirmed"` is unchanged by the
status-overwrite. -/
lemma booking_set_status_self (r : Booking) (h : r.status = "confirmed") :
    { r with status := "confirmed" } = r := by
  cases r
  simp_all

/-! ### Claim theorems -/

/-- Claim C2: for every delivered message sequence, the consumer loop
assigns every message a disposition (it never crashes and proceeds message
by message), and a message is completed (acknowledged, removed from the
queue) exactly when its body deserializes with a booking id and the
database update succeeds; otherwise it is abandoned for redelivery. -/
theorem consumer_ack_iff_success (db : List Booking) (msgs : List MsgEnv) :
    (receive_messages db msgs).1
      = msgs.map (fun m =>
          if msgSucceeds m = true then MsgOutcome.completed
          else MsgOutcome.abandoned)
    ∧ (receive_messages db msgs).1.length = msgs.length := by
  have key : ∀ (ms : List MsgEnv) (d : List Booking),
      (receive_messages d ms).1
        = ms.map (fun m =>
            if msgSucceeds m = true then MsgOutcome.completed
            else MsgOutcome.abandoned) := by
    intro ms
    induction ms with
    | nil => intro d; rfl
    | cons m rest ih =>
      intro d
      simp [receive_messages, ih, handleMessage_fst]
  refine ⟨key msgs db, ?_⟩
  rw [key msgs db]
  simp

/-- Claim C3: the consumer's status update is idempotent — applying it
twice to any table and booking id equals applying it once, every matching
row ends with status exactly `"confirmed"`, and the full per-message
processing step is likewise idempotent on the table. -/
theorem status_update_idempotent (db : List Booking) (bid : Nat) :
    updateStatusConfirmed (updateStatusConfirmed db bid) bid
      = updateStatusConfirmed db bid
    ∧ (∀ r ∈ updateStatusConfirmed db bid, r.id = bid → r.status = "confirmed")
    ∧ (handleMessage (handleMessage db ⟨some (some bid), true⟩).2
         ⟨some (some bid), true⟩).2
      = (handleMessage db ⟨some (some bid), true⟩).2 := by
  have hidem : updateStatusConfirmed (updateStatusConfirmed db bid) bid
      = updateStatusConfirmed db bid := by
    simp only [updateStatusConfirmed, List.map_map]
    apply List.map_congr_left
    intro r _
    by_cases h : r.id = bid
    · simp [Function.comp, h]
    · simp [Function.comp, h]
  refine ⟨hidem, ?_, ?_⟩
  · intro r hr hid
    simp only [updateStatusConfirmed, List.mem_map] at hr
    obtain ⟨a, _, ha⟩ := hr
    by_cases h : a.id = bid
    · rw [if_pos h] at ha
      rw [← ha]
    · rw [if_neg h] at ha
      rw [← ha] at hid
      exact absurd hid h
  · simp [handleMessage, process_booking_message, hidem]

/-- Claim C3 witness: on a concrete one-row table, updating twice equals
updating once and the row's status is `"confirmed"`. -/
theorem status_update_idempotent_witness :
    updateStatusConfirmed
        (updateStatusConfirmed
          [⟨7, 3, 2, "Grooming", "paws", "2024-06-01", "10:00 AM", "pending", 5⟩] 7) 7
      = updateStatusConfirmed
          [⟨7, 3, 2, "Grooming", "paws", "2024-06-01", "10:00 AM", "pending", 5⟩] 7
    ∧ (Booking.mk 7 3 2 "Grooming" "paws" "2024-06-01" "10:00 AM" "confirmed" 5)
        ∈ updateStatusConfirmed
            [⟨7, 3, 2, "Grooming", "paws", "2024-06-01", "10:00 AM", "pending", 5⟩] 7
    ∧ (Booking.mk 7 3 2 "Grooming" "paws" "2024-06-01" "10:00 AM" "confirmed" 5).status
        = "confirmed" := by
  have h := status_update_idempotent
    [⟨7, 3, 2, "Grooming", "paws", "2024-06-01", "10:00 AM", "pending", 5⟩] 7
  refine ⟨h.1, by decide, ?_⟩
  exact h.2.1 _ (by decide) (by decide)

/-- Claim C6: a message whose booking id matches no row updates zero rows
(the table is unchanged), no exception escapes the processing step, and the
message is still completed — indistinguishable from success. -/
theorem missing_booking_id_acked (db : List Booking) (bid : Nat)
    (h : ∀ r ∈ db, r.id ≠ bid) :
    updateStatusConfirmed db bid = db
    ∧ process_booking_message db (some bid) true = some db
    ∧ handleMessage db ⟨some (some bid), true⟩ = (MsgOutcome.completed, db) := by
  have hupd : updateStatusConfirmed db bid = db := by
    have h1 : updateStatusConfirmed db bid = db.map id :=
      List.map_congr_left (fun r hr => by simp [if_neg (h r hr)])
    simpa using h1
  refine ⟨hupd, ?_, ?_⟩
  · simp [process_booking_message, hupd]
  · simp [handleMessage, process_booking_message, hupd]

/-- Claim C6 witness: a concrete table with one row of id 7 and a message
for the absent id 1 — table unchanged, message completed. -/
theorem missing_booking_id_acked_witness :
    updateStatusConfirmed
        [⟨7, 3, 2, "Grooming", "paws", "2024-06-01", "10:00 AM", "pending", 5⟩] 1
      = [⟨7, 3, 2, "Grooming", "paws", "2024-06-01", "10:00 AM", "pending", 5⟩]
    ∧ handleMessage
        [⟨7, 3, 2, "Grooming", "paws", "2024-06-01", "10:00 AM", "pending", 5⟩]
        ⟨some (some 1), true⟩
      = (MsgOutcome.completed,
         [⟨7, 3, 2, "Grooming", "paws", "2024-06-01", "10:00 AM", "pending", 5⟩]) := by
  have h := missing_booking_id_acked
    [⟨7, 3, 2, "Grooming", "paws", "2024-06-01", "10:00 AM", "pending", 5⟩] 1
    (by decide)
  exact ⟨h.1, h.2.2⟩

/-- Claim C9: the consumer's update mutates only the status field of rows
matching the message's booking id — the table keeps its length, every
non-matching row is unchanged, and a matching row keeps every field except
status, which becomes `"confirmed"`. -/
theorem consumer_mutates_only_status (db : List Booking) (bid : Nat) :
    (updateStatusConfirmed db bid).length = db.length
    ∧ ∀ i (h : i < db.length) (h2 : i < (updateStatusConfirmed db bid).length),
        ((db.get ⟨i, h⟩).id ≠ bid →
          (updateStatusConfirmed db bid).get ⟨i, h2⟩ = db.get ⟨i, h⟩)
        ∧ ((db.get ⟨i, h⟩).id = bid →
            ((updateStatusConfirmed db bid).get ⟨i, h2⟩).status = "confirmed"
            ∧ ((updateStatusConfirmed db bid).get ⟨i, h2⟩).id
                = (db.get ⟨i, h⟩).id
            ∧ ((updateStatusConfirmed db bid).get ⟨i, h2⟩).user_id
                = (db.get ⟨i, h⟩).user_id
            ∧ ((updateStatusConfirmed db bid).get ⟨i, h2⟩).pet_id
                = (db.get ⟨i, h⟩).pet_id
            ∧ ((updateStatusConfirmed db bid).get ⟨i, h2⟩).service_type
                = (db.get ⟨i, h⟩).service_type
            ∧ ((updateStatusConfirmed db bid).get ⟨i, h2⟩).vendor_id
                = (db.get ⟨i, h⟩).vendor_id
            ∧ ((updateStatusConfirmed db bid).get ⟨i, h2⟩).booking_date
                = (db.get ⟨i, h⟩).booking_date
            ∧ ((updateStatusConfirmed db bid).get ⟨i, h2⟩).booking_time
                = (db.get ⟨i, h⟩).booking_time
            ∧ ((updateStatusConfirmed db bid).get ⟨i, h2⟩).created_at
                = (db.get ⟨i, h⟩).created_at) := by
  refine ⟨by simp [updateStatusConfirmed], ?_⟩
  intro i h h2
  have hget : (updateStatusConfirmed db bid).get ⟨i, h2⟩
      = if (db.get ⟨i, h⟩).id = bid
        then { db.get ⟨i, h⟩ with status := "confirmed" }
        else db.get ⟨i, h⟩ := by
    simp [updateStatusConfirmed, List.get_eq_getElem, List.getElem_map]
  constructor
  · intro hne
    rw [hget, if_neg hne]
  · intro heq
    rw [hget, if_pos heq]
    simp

/-- Claim C9 witness: on a concrete two-row table, the matching row keeps
all fields but status and the other row is untouched. -/
theorem consumer_mutates_only_status_witness :
    (updateStatusConfirmed
        [⟨7, 3, 2, "Grooming", "paws", "2024-06-01", "10:00 AM", "pending", 5⟩,
         ⟨8, 4, 1, "Training", "elite", "2024-06-02", "11:00 AM", "pending", 6⟩]
        7).length = 2
    ∧ (updateStatusConfirmed
        [⟨7, 3, 2, "Grooming", "paws", "2024-06-01", "10:00 AM", "pending", 5⟩,
         ⟨8, 4, 1, "Training", "elite", "2024-06-02", "11:00 AM", "pending", 6⟩]
        7).get ⟨1, by decide⟩
      = ⟨8, 4, 1, "Training", "elite", "2024-06-02", "11:00 AM", "pending", 6⟩
    ∧ ((updateStatusConfirmed
        [⟨7, 3, 2, "Grooming", "paws", "2024-06-01", "10:00 AM", "pending", 5⟩,
         ⟨8, 4, 1, "Training", "elite", "2024-06-02", "11:00 AM", "pending", 6⟩]
        7).get ⟨0, by decide⟩).status = "confirmed" := by
  have h := consumer_mutates_only_status
    [⟨7, 3, 2, "Grooming", "paws", "2024-06-01", "10:00 AM", "pending", 5⟩,
     ⟨8, 4, 1, "Training", "elite", "2024-06-02", "11:00 AM", "pending", 6⟩] 7
  refine ⟨h.1, ?_, ?_⟩
  · exact (h.2 1 (by decide) (by decide)).1 (by decide)
  · exact ((h.2 0 (by decide) (by decide)).2 (by decide)).1

/-- Claim C5: the supervision loop of `main` — a broker connectivity error
is logged and followed by a fixed 10 second sleep and another call to the
receive loop; the loop's trace always continues with a pending receive
call; it exits exactly when an interrupt occurs, never from any number of
connection errors; and an interrupt produces a clean log-and-stop. -/
theorem main_supervision_loop :
    (∀ rest, mainTrace (RunOutcome.connError :: rest)
        = Action.receiveCall :: Action.logConnError :: Action.sleep 10
            :: mainTrace rest)
    ∧ (∀ l, (mainTrace l).head? = some Action.receiveCall)
    ∧ (∀ l, mainExits l = true ↔ RunOutcome.interrupt ∈ l)
    ∧ (∀ n, mainExits (List.replicate n RunOutcome.connError) = false)
    ∧ (∀ rest, mainTrace (RunOutcome.interrupt :: rest)
        = [Action.receiveCall, Action.logStopped]) := by
  refine ⟨fun rest => rfl, ?_, ?_, ?_, fun rest => rfl⟩
  · intro l
    cases l with
    | nil => rfl
    | cons o rest => cases o <;> rfl
  · intro l
    induction l with
    | nil => simp [mainExits]
    | cons o rest ih =>
      cases o
      · simpa [mainExits] using ih
      · simpa [mainExits] using ih
      · simp [mainExits]
  · intro n
    induction n with
    | zero => rfl
    | succ k ih => simpa [List.replicate, mainExits] using ih

/-- Claim C5 witness: a concrete schedule — one connection error then an
interrupt — shows the log, the 10 second sleep, the renewed receive call,
and the clean exit. -/
theorem main_supervision_loop_witness :
    mainTrace [RunOutcome.connError, RunOutcome.interrupt]
      = [Action.receiveCall, Action.logConnError, Action.sleep 10,
         Action.receiveCall, Action.logStopped]
    ∧ (mainExits [RunOutcome.connError, RunOutcome.interrupt] = true
        ↔ RunOutcome.interrupt ∈ [RunOutcome.connError, RunOutcome.interrupt])
    ∧ mainExits (List.replicate 3 RunOutcome.connError) = false := by
  have h := main_supervision_loop
  refine ⟨?_, h.2.2.1 _, h.2.2.2.1 3⟩
  rw [h.1 [RunOutcome.interrupt], h.2.2.2.2 []]

/-- Claim C1: for every booking request, every publish event in the
request's trace is preceded by the commit of the row it references; and if
the database write fails on a validated request, the caller gets the
500 persistence error, the table is unchanged and no event — in particular
no publish — occurs. -/
theorem row_committed_before_publish (uid : Int) (data : ReqData) (db : DB)
    (now : Nat) (dbOk pubOk : Bool) :
    commitPrecedesPublish (create_booking uid data db now dbOk pubOk).events
      = true
    ∧ (firstMissingField data = none → dbOk = false →
        (create_booking uid data db now dbOk pubOk).response
            = Response.serverError
        ∧ httpStatus (create_booking uid data db now dbOk pubOk).response = 500
        ∧ (create_booking uid data db now dbOk pubOk).db = db
        ∧ (create_booking uid data db now dbOk pubOk).events = []) := by
  cases hm : firstMissingField data with
  | some f =>
    refine ⟨by simp [create_booking, hm, commitPrecedesPublish,
      rowBeforePublish], ?_⟩
    intro hnone
    cases hnone
  | none =>
    cases dbOk with
    | false =>
      refine ⟨by simp [create_booking, hm, commitPrecedesPublish,
        rowBeforePublish], ?_⟩
      intro _ _
      simp [create_booking, hm, httpStatus]
    | true =>
      refine ⟨?_, ?_⟩
      · cases pubOk <;>
          simp [create_booking, hm, send_booking_to_queue,
            commitPrecedesPublish, rowBeforePublish]
      · intro _ hfalse
        cases hfalse

/-- Claim C1 witness: on a concrete validated request whose database write
fails, the trace is commit-before-publish (vacuously), the response is the
persistence error and nothing was published. -/
theorem row_committed_before_publish_witness :
    commitPrecedesPublish
        (create_booking 3 reqSample dbEmpty 0 false true).events = true
    ∧ (create_booking 3 reqSample dbEmpty 0 false true).response
        = Response.serverError
    ∧ httpStatus (create_booking 3 reqSample dbEmpty 0 false true).response
        = 500
    ∧ (create_booking 3 reqSample dbEmpty 0 false true).events = [] := by
  have h := row_committed_before_publish 3 reqSample dbEmpty 0 false true
  have h2 := h.2 (by decide) rfl
  exact ⟨h.1, h2.1, h2.2.1, h2.2.2.2⟩

/-- Claim C7: a success response carrying a booking id implies the table
holds a row with that id whose status is `pending` or `confirmed` (here:
`confirmed`, the status this create-path inserts). -/
theorem success_response_implies_row (uid : Int) (data : ReqData) (db : DB)
    (now : Nat) (dbOk pubOk : Bool) (bid : Nat)
    (h : (create_booking uid data db now dbOk pubOk).response
        = Response.created bid) :
    ∃ r ∈ (create_booking uid data db now dbOk pubOk).db.rows,
      r.id = bid ∧ (r.status = "pending" ∨ r.status = "confirmed") := by
  cases hm : firstMissingField data with
  | some f => simp [create_booking, hm] at h
  | none =>
    cases dbOk with
    | false => simp [create_booking, hm] at h
    | true =>
      cases pubOk with
      | false => simp [create_booking, hm, send_booking_to_queue] at h
      | true =>
        simp only [create_booking, hm, send_booking_to_queue] at h ⊢
        simp at h
        refine ⟨⟨db.nextId, uid, data.pet_id.getD 0, data.service_type.getD "",
          data.vendor_id.getD "", data.booking_date.getD "",
          data.booking_time.getD "", "confirmed", now⟩, by simp, ?_, Or.inr rfl⟩
        simpa using h

/-- Claim C7 witness: the concrete scenario request gets response
`created 1` and the table indeed holds row 1 with status `confirmed`. -/
theorem success_response_implies_row_witness :
    ∃ r ∈ (create_booking 3 reqSample dbEmpty 0 true true).db.rows,
      r.id = 1 ∧ (r.status = "pending" ∨ r.status = "confirmed") :=
  success_response_implies_row 3 reqSample dbEmpty 0 true true 1 (by decide)

/-- Claim C10: a request body missing a required field is rejected with a
400 response naming the first missing field in declaration order, the table
is unchanged and no event (commit or publish) occurs. -/
theorem validation_first_missing_field (uid : Int) (data : ReqData) (db : DB)
    (now : Nat) (dbOk pubOk : Bool) (f : String)
    (h : firstMissingField data = some f) :
    (create_booking uid data db now dbOk pubOk).response
        = Response.missingField f
    ∧ httpStatus (create_booking uid data db now dbOk pubOk).response = 400
    ∧ (create_booking uid data db now dbOk pubOk).db = db
    ∧ (create_booking uid data db now dbOk pubOk).events = []
    ∧ hasField data f = false
    ∧ ∃ l1 l2, requiredFields = l1 ++ f :: l2
        ∧ ∀ g ∈ l1, hasField data g = true := by
  obtain ⟨hp, l1, l2, heq, hall⟩ :=
    find?_eq_some_first (fun x => !hasField data x) requiredFields f
      (by simpa [firstMissingField] using h)
  refine ⟨by simp [create_booking, h], by simp [create_booking, h, httpStatus],
    by simp [create_booking, h], by simp [create_booking, h],
    by simpa using hp, l1, l2, heq, ?_⟩
  intro g hg
  simpa using hall g hg

/-- Claim C10 witness: a request missing `vendor_id` (with `pet_id` and
`service_type` present) is rejected naming `vendor_id`, with no state
change and no events. -/
theorem validation_first_missing_field_witness :
    (create_booking 3 reqMissing dbEmpty 0 true true).response
        = Response.missingField "vendor_id"
    ∧ httpStatus (create_booking 3 reqMissing dbEmpty 0 true true).response
        = 400
    ∧ (create_booking 3 reqMissing dbEmpty 0 true true).db = dbEmpty
    ∧ (create_booking 3 reqMissing dbEmpty 0 true true).events = []
    ∧ hasField reqMissing "vendor_id" = false := by
  have h := validation_first_missing_field 3 reqMissing dbEmpty 0 true true
    "vendor_id" (by decide)
  exact ⟨h.1, h.2.1, h.2.2.1, h.2.2.2.1, h.2.2.2.2.1⟩

/-- Claim C8: any message the producer publishes (attempted or delivered)
targets the queue `booking-queue`, its serialized body has exactly the
seven fields in source order, and its values come from the request and
coincide with the newly committed row, status included. -/
theorem published_message_shape (uid : Int) (data : ReqData) (db : DB)
    (now : Nat) (dbOk pubOk : Bool) (q : String) (m : BookingMessage)
    (d : Bool)
    (h : PEvent.publish q m d
        ∈ (create_booking uid data db now dbOk pubOk).events) :
    q = "booking-queue"
    ∧ (messageBody m).map Prod.fst
        = ["booking_id", "user_id", "service_type", "vendor_id",
           "booking_date", "booking_time", "status"]
    ∧ m.user_id = uid
    ∧ data.service_type = some m.service_type
    ∧ data.vendor_id = some m.vendor_id
    ∧ data.booking_date = some m.booking_date
    ∧ data.booking_time = some m.booking_time
    ∧ m.status = "confirmed"
    ∧ ∃ r ∈ (create_booking uid data db now dbOk pubOk).db.rows,
        r.id = m.booking_id ∧ r.user_id = m.user_id
        ∧ r.service_type = m.service_type ∧ r.vendor_id = m.vendor_id
        ∧ r.booking_date = m.booking_date ∧ r.booking_time = m.booking_time
        ∧ r.status = m.status := by
  cases hm : firstMissingField data with
  | some f => simp [create_booking, hm] at h
  | none =>
    cases dbOk with
    | false => simp [create_booking, hm] at h
    | true =>
      obtain ⟨hp, hs, hv, hbd, hbt⟩ := firstMissingField_none_isSome data hm
      obtain ⟨sv, hsv⟩ := Option.isSome_iff_exists.mp hs
      obtain ⟨vv, hvv⟩ := Option.isSome_iff_exists.mp hv
      obtain ⟨dv, hdv⟩ := Option.isSome_iff_exists.mp hbd
      obtain ⟨tv, htv⟩ := Option.isSome_iff_exists.mp hbt
      cases pubOk with
      | false =>
        simp [create_booking, hm, send_booking_to_queue,
          BOOKING_QUEUE_NAME] at h
        obtain ⟨hq, hmm, _⟩ := h
        subst hq
        subst hmm
        refine ⟨rfl, rfl, rfl, by simp [hsv], by simp [hvv], by simp [hdv],
          by simp [htv], rfl, ?_⟩
        simp only [create_booking, hm, send_booking_to_queue]
        exact ⟨⟨db.nextId, uid, data.pet_id.getD 0, data.service_type.getD "",
          data.vendor_id.getD "", data.booking_date.getD "",
          data.booking_time.getD "", "confirmed", now⟩, by simp,
          rfl, rfl, rfl, rfl, rfl, rfl, rfl⟩
      | true =>
        simp [create_booking, hm, send_booking_to_queue,
          BOOKING_QUEUE_NAME] at h
        obtain ⟨hq, hmm, _⟩ := h
        subst hq
        subst hmm
        refine ⟨rfl, rfl, rfl, by simp [hsv], by simp [hvv], by simp [hdv],
          by simp [htv], rfl, ?_⟩
        simp only [create_booking, hm, send_booking_to_queue]
        exact ⟨⟨db.nextId, uid, data.pet_id.getD 0, data.service_type.getD "",
          data.vendor_id.getD "", data.booking_date.getD "",
          data.booking_time.getD "", "confirmed", now⟩, by simp,
          rfl, rfl, rfl, rfl, rfl, rfl, rfl⟩

/-- Claim C8 witness: the concrete scenario request publishes exactly one
message, to `booking-queue`, whose fields mirror the committed row. -/
theorem published_message_shape_witness :
    PEvent.publish "booking-queue"
        ⟨1, 3, "Grooming", "paws", "2024-06-01", "10:00 AM", "confirmed"⟩ true
      ∈ (create_booking 3 reqSample dbEmpty 0 true true).events
    ∧ (messageBody
        ⟨1, 3, "Grooming", "paws", "2024-06-01", "10:00 AM", "confirmed"⟩).map
          Prod.fst
      = ["booking_id", "user_id", "service_type", "vendor_id",
         "booking_date", "booking_time", "status"]
    ∧ ∃ r ∈ (create_booking 3 reqSample dbEmpty 0 true true).db.rows,
        r.id = 1 ∧ r.status = "confirmed" := by
  have h := published_message_shape 3 reqSample dbEmpty 0 true true
    "booking-queue"
    ⟨1, 3, "Grooming", "paws", "2024-06-01", "10:00 AM", "confirmed"⟩ true
    (by decide)
  obtain ⟨r, hr, hid, _, _, _, _, _, hst⟩ := h.2.2.2.2.2.2.2.2
  exact ⟨by decide, h.2.1, r, hr, hid, by rw [hst]⟩

/-- Claim C4 counterexample: on the scenario request with the database
write succeeding and the publish failing, the committed row's status is
`confirmed`, not `pending` as the claim states (the HTTP status is still
the 201 success code). -/
theorem queue_unavailable_status_cex :
    (create_booking 3 reqSample dbEmpty 0 true false).db.rows.map
        Booking.status = ["confirmed"]
    ∧ ¬ ((create_booking 3 reqSample dbEmpty 0 true false).db.rows.map
        Booking.status = ["pending"])
    ∧ httpStatus (create_booking 3 reqSample dbEmpty 0 true false).response
        = 201 := by
  refine ⟨by decide, by decide, by decide⟩

/-- Claim C4 as amended: when the database write succeeds and the publish
fails on a validated request, the operation still returns the 201 success
status (its body reporting the queue unavailability), the committed row
exists with status `confirmed`, the publish failure is logged, exactly one
publish attempt is made (no synchronous retry), and no message reaches the
queue. -/
theorem queue_unavailable_amended_thm (uid : Int) (data : ReqData) (db : DB)
    (now : Nat) (h : firstMissingField data = none) :
    (create_booking uid data db now true false).response
        = Response.createdQueueUnavailable
    ∧ httpStatus (create_booking uid data db now true false).response = 201
    ∧ (∃ r ∈ (create_booking uid data db now true false).db.rows,
        r.id = db.nextId ∧ r.status = "confirmed")
    ∧ publishFailureLogged (create_booking uid data db now true false) = true
    ∧ (publishAttempts
        (create_booking uid data db now true false).events).length = 1
    ∧ deliveredMessages (create_booking uid data db now true false).events
        = [] := by
  refine ⟨by simp [create_booking, h, send_booking_to_queue],
    by simp [create_booking, h, send_booking_to_queue, httpStatus], ?_,
    by simp [create_booking, h, send_booking_to_queue, publishFailureLogged],
    by simp [create_booking, h, send_booking_to_queue, publishAttempts],
    by simp [create_booking, h, send_booking_to_queue, deliveredMessages]⟩
  simp only [create_booking, h, send_booking_to_queue]
  exact ⟨⟨db.nextId, uid, data.pet_id.getD 0, data.service_type.getD "",
    data.vendor_id.getD "", data.booking_date.getD "",
    data.booking_time.getD "", "confirmed", now⟩, by simp, rfl, rfl⟩

/-- Claim C4 amended witness: the concrete scenario request under a failing
broker — 201 with the queue-unavailable body, row committed as `confirmed`,
failure logged, one attempt, nothing delivered. -/
theorem queue_unavailable_amended_witness :
    (create_booking 3 reqSample dbEmpty 0 true false).response
        = Response.createdQueueUnavailable
    ∧ httpStatus (create_booking 3 reqSample dbEmpty 0 true false).response
        = 201
    ∧ publishFailureLogged (create_booking 3 reqSample dbEmpty 0 true false)
        = true
    ∧ (publishAttempts
        (create_booking 3 reqSample dbEmpty 0 true false).events).length = 1
    ∧ deliveredMessages
        (create_booking 3 reqSample dbEmpty 0 true false).events = [] := by
  have h := queue_unavailable_amended_thm 3 reqSample dbEmpty 0 (by decide)
  exact ⟨h.1, h.2.1, h.2.2.2.1, h.2.2.2.2.1, h.2.2.2.2.2⟩

end PawfectFind
